import Mathlib

/-!
# Verification of the Instagram-repost Telegram bot (`src/bot.py`)

Shallow embedding of the single-job retrieval-and-repost pipeline:
Python strings are modelled as `List Char` (one element per code point,
matching Python's `len`/slicing semantics), the regex-based link parser is
modelled as an explicit backtracking matcher faithful to the pattern
`(?:https?://)?(?:www\.)?instagram\.com/(?:p|reel|tv)/([A-Za-z0-9_-]+)/?`,
and the `handle_message` coroutine is modelled as a function from an
environment (authorization ids, message text, downloader outcome, artifact
presence and size, metadata parse outcome, delivery outcome, and an optional
injected internal fault) to the list of observable effects it performs.
-/

set_option maxRecDepth 16384

/-- A Python `str`, one list element per code point. -/
abbrev PyStr := List Char

/-- Literal Python strings, written as Lean string literals. -/
def str (s : String) : PyStr := s.toList

/- ========================= configuration constants =========================
   `src/bot.py` lines 27-29 and 46. -/

/-- Telegram's API limit for video captions (`TELEGRAM_CAPTION_LIMIT = 1024`). -/
def TELEGRAM_CAPTION_LIMIT : Nat := 1024

/-- Telegram's file size limit for bots in MB (`MAX_FILE_SIZE_MB = 50`). -/
def MAX_FILE_SIZE_MB : Nat := 50

/-- `MAX_FILE_SIZE_BYTES = MAX_FILE_SIZE_MB * 1024 * 1024` (line 46). -/
def MAX_FILE_SIZE_BYTES : Nat := MAX_FILE_SIZE_MB * 1024 * 1024

/- ============================== link parser ==============================
   `SHORTCODE_RE` (lines 47-49) and `extract_shortcode` (lines 51-54). -/

/-- The character class `[A-Za-z0-9_-]` of the shortcode group. -/
def isShortcodeChar (c : Char) : Bool :=
  ('A' ≤ c && c ≤ 'Z') || ('a' ≤ c && c ≤ 'z') || ('0' ≤ c && c ≤ '9') ||
    c = '_' || c = '-'

/-- Match a literal character sequence at the front of the input, returning
the remaining input on success (regex literal matching). -/
def matchLit : PyStr → PyStr → Option PyStr
  | [], s => some s
  | _ :: _, [] => none
  | l :: ls, c :: cs => if l = c then matchLit ls cs else none

/-- Match the greedy group `([A-Za-z0-9_-]+)`: the maximal run of shortcode
characters, which must be nonempty.  The trailing `/?` of the pattern never
affects the captured group because `/` is not a shortcode character. -/
def matchShortcodeToken (s : PyStr) : Option PyStr :=
  match s.takeWhile isShortcodeChar with
  | [] => none
  | c :: cs => some (c :: cs)

/-- Match `(?:p|reel|tv)/` followed by the shortcode group, trying the
alternatives in the regex's left-to-right order with backtracking. -/
def matchSegment (s : PyStr) : Option PyStr :=
  (matchLit (str "p/") s >>= matchShortcodeToken) <|>
  (matchLit (str "reel/") s >>= matchShortcodeToken) <|>
  (matchLit (str "tv/") s >>= matchShortcodeToken)

/-- Match `instagram\.com/` followed by the segment and shortcode group. -/
def matchHost (s : PyStr) : Option PyStr :=
  matchLit (str "instagram.com/") s >>= matchSegment

/-- Match the optional `(?:www\.)?` (greedy: with the `www.` first, then
without) followed by the host part. -/
def matchWwwOpt (s : PyStr) : Option PyStr :=
  (matchLit (str "www.") s >>= matchHost) <|> matchHost s

/-- Match the optional scheme `(?:https?://)?` (greedy: `https://`, then
`http://`, then nothing) followed by the rest of the pattern.  This is the
whole pattern anchored at one position of the input. -/
def matchSchemeOpt (s : PyStr) : Option PyStr :=
  (matchLit (str "https://") s >>= matchWwwOpt) <|>
  (matchLit (str "http://") s >>= matchWwwOpt) <|>
  matchWwwOpt s

/-- `re.search`: try the anchored pattern at each position left to right and
return the first successful capture. -/
def searchShortcode : PyStr → Option PyStr
  | [] => none
  | c :: rest => matchSchemeOpt (c :: rest) <|> searchShortcode rest

/-- `extract_shortcode` (lines 51-54): the shortcode of the first match, or
`none` when no position matches. -/
def extract_shortcode (url : PyStr) : Option PyStr :=
  searchShortcode url

/-- The canonical retrieval URL rebuilt from the shortcode (line 83):
`f"https://www.instagram.com/p/{shortcode}/"`. -/
def canonicalUrl (shortcode : PyStr) : PyStr :=
  str "https://www.instagram.com/p/" ++ shortcode ++ str "/"

/- ============================ string helpers ============================ -/

/-- Python's `str.strip()`: remove leading and trailing whitespace. -/
def pyStrip (s : PyStr) : PyStr :=
  ((s.dropWhile Char.isWhitespace).reverse.dropWhile Char.isWhitespace).reverse

/- ============================ caption builder ============================
   `src/bot.py` lines 143-158. -/

/-- The consumed fields of the parsed `*.info.json` metadata artifact; a
`none` field is one absent from the JSON object. -/
structure InfoJson where
  uploader : Option PyStr
  description : Option PyStr
  webpage_url : Option PyStr
deriving DecidableEq

/-- `info.get("uploader", "unknown")` (line 146). -/
def infoUploader (i : InfoJson) : PyStr := i.uploader.getD (str "unknown")

/-- `info.get("description", "")` (line 147). -/
def infoDescription (i : InfoJson) : PyStr := i.description.getD (str "")

/-- `info.get("webpage_url", url)` (line 148): falls back to the canonical
URL built from the shortcode, not to a fixed sentinel. -/
def infoPostUrl (i : InfoJson) (url : PyStr) : PyStr := i.webpage_url.getD url

/-- The composed caption (lines 151-153):
`f"{description}\n\nSource: @{uploader}\nLink: {post_url}"`. -/
def buildRawCaption (description uploader post_url : PyStr) : PyStr :=
  description ++ str "\n\n" ++ str "Source: @" ++ uploader ++ str "\n" ++
    str "Link: " ++ post_url

/-- The truncation step (lines 156-157):
`caption[:TELEGRAM_CAPTION_LIMIT - 4] + "..."` when the caption is over the
limit, the caption unchanged otherwise. -/
def truncateCaption (caption : PyStr) : PyStr :=
  if TELEGRAM_CAPTION_LIMIT < caption.length then
    caption.take (TELEGRAM_CAPTION_LIMIT - 4) ++ str "..."
  else caption

/-- The caption finally passed to `send_video`: composition then truncation
(lines 146-158), with the per-field fallbacks of lines 146-148. -/
def composeCaption (i : InfoJson) (url : PyStr) : PyStr :=
  truncateCaption
    (buildRawCaption (infoDescription i) (infoUploader i) (infoPostUrl i url))

/- ========================== pipeline state model ==========================
   `start_command` (lines 56-63) and `handle_message` (lines 65-178). -/

/-- The contents of the status messages the bot sends or edits.  Messages
that interpolate data carry that data as constructor arguments. -/
inductive StatusMsg
  | hello
  | invalidLink
  | gotIt
  | downloadFailed (errText : PyStr)
  | artifactMissing
  | tooLarge (sizeBytes : Nat) (limitMB : Nat)
  | downloadComplete
  | posted
  | deliveryFailed (errText : PyStr)
  | unexpectedError (errText : PyStr)
deriving DecidableEq

/-- The observable effects of one inbound update, in program order. -/
inductive Effect
  | reply (m : StatusMsg)
  | editStatus (m : StatusMsg)
  | mkdirTemp (shortcode : PyStr)
  | runDownloader (url : PyStr)
  | sendVideo (caption : PyStr)
  | removeTemp (shortcode : PyStr)
deriving DecidableEq

/-- Outcome of the `context.bot.send_video` call (lines 161-165). -/
inductive SendResult
  | ok
  | telegramError (msg : PyStr)
  | unexpectedError (msg : PyStr)
deriving DecidableEq

/-- The environment one job runs against: everything outside the program's
control.  `faultAt = some k` injects an unexpected internal exception at
sequence point `k` of the `try` block (0 = subprocess invocation, 1 = artifact
globbing, 2 = size stat, 3 = metadata load, 4 = upload preparation), modelling
an arbitrary internal fault during that step. -/
structure DownloadEnv where
  returncode : Nat
  stderrText : PyStr
  videoPresent : Bool
  infoJsonPresent : Bool
  videoSize : Nat
  infoParse : Option InfoJson
  sendResult : SendResult
  faultAt : Option Nat
deriving DecidableEq

/-- Text of an injected unexpected internal exception. -/
def faultText : PyStr := str "injected internal fault"

/-- Text of the exception raised by `json.load` on an unparseable artifact. -/
def jsonErrorText : PyStr := str "metadata artifact is not valid JSON"

/-- How the `try` block of lines 90-167 ended: returned (normally or by an
early `return`), raised a `TelegramError`, or raised some other exception —
in each case with the effects performed before that point. -/
inductive BodyOutcome
  | finished (effects : List Effect)
  | telegramRaised (effects : List Effect) (msg : PyStr)
  | otherRaised (effects : List Effect) (msg : PyStr)
deriving DecidableEq

/-- The `try` block (lines 90-167): downloader invocation, exit-code check,
artifact location, size gate, metadata load, caption build, upload. -/
def runBody (env : DownloadEnv) (url : PyStr) : BodyOutcome :=
  if env.faultAt = some 0 then BodyOutcome.otherRaised [] faultText
  else if env.returncode ≠ 0 then
    BodyOutcome.finished [Effect.runDownloader url,
      Effect.editStatus (StatusMsg.downloadFailed (pyStrip env.stderrText))]
  else if env.faultAt = some 1 then
    BodyOutcome.otherRaised [Effect.runDownloader url] faultText
  else if !(env.videoPresent && env.infoJsonPresent) then
    BodyOutcome.finished [Effect.runDownloader url,
      Effect.editStatus StatusMsg.artifactMissing]
  else if env.faultAt = some 2 then
    BodyOutcome.otherRaised [Effect.runDownloader url] faultText
  else if MAX_FILE_SIZE_BYTES < env.videoSize then
    BodyOutcome.finished [Effect.runDownloader url,
      Effect.editStatus (StatusMsg.tooLarge env.videoSize MAX_FILE_SIZE_MB)]
  else if env.faultAt = some 3 then
    BodyOutcome.otherRaised
      [Effect.runDownloader url, Effect.editStatus StatusMsg.downloadComplete]
      faultText
  else
    match env.infoParse with
    | none =>
      BodyOutcome.otherRaised
        [Effect.runDownloader url, Effect.editStatus StatusMsg.downloadComplete]
        jsonErrorText
    | some info =>
      if env.faultAt = some 4 then
        BodyOutcome.otherRaised
          [Effect.runDownloader url, Effect.editStatus StatusMsg.downloadComplete]
          faultText
      else
        match env.sendResult with
        | SendResult.ok =>
          BodyOutcome.finished
            [Effect.runDownloader url, Effect.editStatus StatusMsg.downloadComplete,
             Effect.sendVideo (composeCaption info url),
             Effect.editStatus StatusMsg.posted]
        | SendResult.telegramError m =>
          BodyOutcome.telegramRaised
            [Effect.runDownloader url, Effect.editStatus StatusMsg.downloadComplete,
             Effect.sendVideo (composeCaption info url)] m
        | SendResult.unexpectedError m =>
          BodyOutcome.otherRaised
            [Effect.runDownloader url, Effect.editStatus StatusMsg.downloadComplete]
            m

/-- The `except TelegramError` / `except Exception` handlers (lines 169-174):
one status edit naming the failure; a normally finished body adds nothing. -/
def bodyEffects : BodyOutcome → List Effect
  | BodyOutcome.finished effs => effs
  | BodyOutcome.telegramRaised effs m =>
      effs ++ [Effect.editStatus (StatusMsg.deliveryFailed m)]
  | BodyOutcome.otherRaised effs m =>
      effs ++ [Effect.editStatus (StatusMsg.unexpectedError m)]

/-- `handle_message` (lines 65-178) as an effect trace: strip the text,
silently drop unauthorized senders, reprompt when no shortcode is found,
otherwise reply, create the temporary directory, run the `try` body and its
handlers, and — in `finally` — remove the temporary directory. -/
def handle_message (userId allowedUserId : Int) (msgText : PyStr)
    (env : DownloadEnv) : List Effect :=
  if userId ≠ allowedUserId then []
  else
    match extract_shortcode (pyStrip msgText) with
    | none => [Effect.reply StatusMsg.invalidLink]
    | some shortcode =>
      Effect.reply StatusMsg.gotIt :: Effect.mkdirTemp shortcode ::
        (bodyEffects (runBody env (canonicalUrl shortcode)) ++
          [Effect.removeTemp shortcode])

/-- `start_command` (lines 56-63): silently drop unauthorized senders,
otherwise reply with the greeting. -/
def start_command (userId allowedUserId : Int) : List Effect :=
  if userId ≠ allowedUserId then [] else [Effect.reply StatusMsg.hello]

/- ===================== spec-side escaping predicate =====================
   Modelled from the spec: the reserved set of the destination markup dialect
   (backslash and the dialect's formatting control punctuation) and the scan
   for an unescaped reserved character.  The source performs no escaping, so
   this predicate exists only to compare the source's caption against the
   spec's invariant. -/

/-- The fixed reserved markup set: backslash plus the MarkdownV2 formatting
control punctuation. -/
def reservedMarkupChars : List Char :=
  ['\\', '_', '*', '[', ']', '(', ')', '~', Char.ofNat 96, '>', '#', '+',
   '-', '=', '|', Char.ofNat 123, Char.ofNat 125, '.', '!']

/-- Whether a character belongs to the reserved markup set. -/
def isReservedChar (c : Char) : Bool := reservedMarkupChars.contains c

/-- Scan for an unescaped reserved character: a backslash escapes the
character after it; a reserved character not consumed by such a pair (or a
trailing bare backslash) is unescaped. -/
def containsUnescapedReserved : PyStr → Bool
  | [] => false
  | c :: rest =>
    if c = '\\' then
      match rest with
      | [] => true
      | _ :: t => containsUnescapedReserved t
    else if isReservedChar c then true
    else containsUnescapedReserved rest

/- ============================ trace helpers ============================ -/

/-- Whether an effect is the working-directory cleanup (`shutil.rmtree`). -/
def isCleanup : Effect → Bool
  | Effect.removeTemp _ => true
  | _ => false

/-- Number of cleanup effects in a trace. -/
def cleanupCount (t : List Effect) : Nat := (t.filter isCleanup).length

/-- Whether an effect is an upload call (`context.bot.send_video`). -/
def isUpload : Effect → Bool
  | Effect.sendVideo _ => true
  | _ => false

/- ======================= lemmas about the link parser ======================= -/

theorem matchLit_self_append (l r : PyStr) : matchLit l (l ++ r) = some r := by
  induction l with
  | nil => rfl
  | cons c cs ih => simp [matchLit, ih]

theorem takeWhile_shortcode_append (tok rest : PyStr)
    (htok : ∀ c ∈ tok, isShortcodeChar c = true) :
    (tok ++ '/' :: rest).takeWhile isShortcodeChar = tok := by
  induction tok with
  | nil =>
    have h : isShortcodeChar '/' = false := by decide
    simp [List.takeWhile_cons, h]
  | cons c cs ih =>
    have hc : isShortcodeChar c = true := htok c (List.mem_cons_self c cs)
    simp only [List.cons_append, List.takeWhile_cons, hc, if_true]
    exact congrArg (c :: ·) (ih fun x hx => htok x (List.mem_cons_of_mem c hx))

theorem matchShortcodeToken_append (tok rest : PyStr) (hne : tok ≠ [])
    (htok : ∀ c ∈ tok, isShortcodeChar c = true) :
    matchShortcodeToken (tok ++ '/' :: rest) = some tok := by
  unfold matchShortcodeToken
  rw [takeWhile_shortcode_append tok rest htok]
  cases tok with
  | nil => exact absurd rfl hne
  | cons c cs => rfl

theorem matchSegment_p_append (X tok : PyStr)
    (hX : matchShortcodeToken X = some tok) :
    matchSegment (str "p/" ++ X) = some tok := by
  unfold matchSegment
  rw [matchLit_self_append]
  simp [hX]

theorem matchSegment_reel_append (X tok : PyStr)
    (hX : matchShortcodeToken X = some tok) :
    matchSegment (str "reel/" ++ X) = some tok := by
  unfold matchSegment
  have h1 : matchLit (str "p/") (str "reel/" ++ X) = none := by simp [str, matchLit]
  rw [h1, matchLit_self_append]
  simp [hX]

theorem matchSegment_tv_append (X tok : PyStr)
    (hX : matchShortcodeToken X = some tok) :
    matchSegment (str "tv/" ++ X) = some tok := by
  unfold matchSegment
  have h1 : matchLit (str "p/") (str "tv/" ++ X) = none := by simp [str, matchLit]
  have h2 : matchLit (str "reel/") (str "tv/" ++ X) = none := by simp [str, matchLit]
  rw [h1, h2, matchLit_self_append]
  simp [hX]

theorem matchHost_append (Y : PyStr) :
    matchHost (str "instagram.com/" ++ Y) = matchSegment Y := by
  unfold matchHost
  rw [matchLit_self_append]
  rfl

theorem matchWwwOpt_append (Y tok : PyStr) (h : matchHost Y = some tok) :
    matchWwwOpt (str "www." ++ Y) = some tok := by
  unfold matchWwwOpt
  rw [matchLit_self_append]
  simp [h]

theorem matchSchemeOpt_append (Z tok : PyStr) (h : matchWwwOpt Z = some tok) :
    matchSchemeOpt (str "https://" ++ Z) = some tok := by
  unfold matchSchemeOpt
  rw [matchLit_self_append]
  simp [h]

theorem searchShortcode_cons_of_match (c : Char) (cs tok : PyStr)
    (h : matchSchemeOpt (c :: cs) = some tok) :
    searchShortcode (c :: cs) = some tok := by
  simp [searchShortcode, h]

theorem extract_shortcode_canonical_p (tok suffix : PyStr) (hne : tok ≠ [])
    (htok : ∀ c ∈ tok, isShortcodeChar c = true) :
    extract_shortcode (str "https://www.instagram.com/p/" ++ (tok ++ '/' :: suffix)) = some tok := by
  have hseg : matchSegment (str "p/" ++ (tok ++ '/' :: suffix)) = some tok :=
    matchSegment_p_append _ _ (matchShortcodeToken_append tok suffix hne htok)
  have hhost : matchHost (str "instagram.com/" ++ (str "p/" ++ (tok ++ '/' :: suffix))) = some tok := by
    rw [matchHost_append]; exact hseg
  have hwww : matchWwwOpt (str "www." ++ (str "instagram.com/" ++ (str "p/" ++ (tok ++ '/' :: suffix)))) = some tok :=
    matchWwwOpt_append _ _ hhost
  have hscheme : matchSchemeOpt (str "https://" ++ (str "www." ++ (str "instagram.com/" ++ (str "p/" ++ (tok ++ '/' :: suffix))))) = some tok :=
    matchSchemeOpt_append _ _ hwww
  show searchShortcode ('h' :: (str "ttps://www.instagram.com/p/" ++ (tok ++ '/' :: suffix))) = some tok
  exact searchShortcode_cons_of_match _ _ _ hscheme

theorem extract_shortcode_canonical_reel (tok suffix : PyStr) (hne : tok ≠ [])
    (htok : ∀ c ∈ tok, isShortcodeChar c = true) :
    extract_shortcode (str "https://www.instagram.com/reel/" ++ (tok ++ '/' :: suffix)) = some tok := by
  have hseg : matchSegment (str "reel/" ++ (tok ++ '/' :: suffix)) = some tok :=
    matchSegment_reel_append _ _ (matchShortcodeToken_append tok suffix hne htok)
  have hhost : matchHost (str "instagram.com/" ++ (str "reel/" ++ (tok ++ '/' :: suffix))) = some tok := by
    rw [matchHost_append]; exact hseg
  have hwww : matchWwwOpt (str "www." ++ (str "instagram.com/" ++ (str "reel/" ++ (tok ++ '/' :: suffix)))) = some tok :=
    matchWwwOpt_append _ _ hhost
  have hscheme : matchSchemeOpt (str "https://" ++ (str "www." ++ (str "instagram.com/" ++ (str "reel/" ++ (tok ++ '/' :: suffix))))) = some tok :=
    matchSchemeOpt_append _ _ hwww
  show searchShortcode ('h' :: (str "ttps://www.instagram.com/reel/" ++ (tok ++ '/' :: suffix))) = some tok
  exact searchShortcode_cons_of_match _ _ _ hscheme

theorem extract_shortcode_canonical_tv (tok suffix : PyStr) (hne : tok ≠ [])
    (htok : ∀ c ∈ tok, isShortcodeChar c = true) :
    extract_shortcode (str "https://www.instagram.com/tv/" ++ (tok ++ '/' :: suffix)) = some tok := by
  have hseg : matchSegment (str "tv/" ++ (tok ++ '/' :: suffix)) = some tok :=
    matchSegment_tv_append _ _ (matchShortcodeToken_append tok suffix hne htok)
  have hhost : matchHost (str "instagram.com/" ++ (str "tv/" ++ (tok ++ '/' :: suffix))) = some tok := by
    rw [matchHost_append]; exact hseg
  have hwww : matchWwwOpt (str "www." ++ (str "instagram.com/" ++ (str "tv/" ++ (tok ++ '/' :: suffix)))) = some tok :=
    matchWwwOpt_append _ _ hhost
  have hscheme : matchSchemeOpt (str "https://" ++ (str "www." ++ (str "instagram.com/" ++ (str "tv/" ++ (tok ++ '/' :: suffix))))) = some tok :=
    matchSchemeOpt_append _ _ hwww
  show searchShortcode ('h' :: (str "ttps://www.instagram.com/tv/" ++ (tok ++ '/' :: suffix))) = some tok
  exact searchShortcode_cons_of_match _ _ _ hscheme

/-- C5: for every nonempty token over the shortcode alphabet and every
trailing text, the parser extracts the identical token from the `/p/`, the
`/reel/`, and the `/tv/` variant of the link, and the canonical retrieval URL
rebuilt from the token is `https://www.instagram.com/p/<token>/` — in
particular the parser re-extracts the same token from the canonical URL. -/
theorem extract_shortcode_segment_variants (tok suffix : PyStr) (hne : tok ≠ [])
    (htok : ∀ c ∈ tok, isShortcodeChar c = true) :
    extract_shortcode (str "https://www.instagram.com/p/" ++ (tok ++ '/' :: suffix)) = some tok ∧
    extract_shortcode (str "https://www.instagram.com/reel/" ++ (tok ++ '/' :: suffix)) = some tok ∧
    extract_shortcode (str "https://www.instagram.com/tv/" ++ (tok ++ '/' :: suffix)) = some tok ∧
    canonicalUrl tok = str "https://www.instagram.com/p/" ++ tok ++ str "/" ∧
    extract_shortcode (canonicalUrl tok) = some tok := by
  refine ⟨extract_shortcode_canonical_p tok suffix hne htok,
          extract_shortcode_canonical_reel tok suffix hne htok,
          extract_shortcode_canonical_tv tok suffix hne htok,
          rfl, ?_⟩
  show extract_shortcode (str "https://www.instagram.com/p/" ++ (tok ++ '/' :: [])) = some tok
  exact extract_shortcode_canonical_p tok [] hne htok

theorem extract_shortcode_segment_variants_witness :
    ((str "abc123" : PyStr) ≠ [] ∧ ∀ c ∈ (str "abc123" : PyStr), isShortcodeChar c = true) ∧
    (extract_shortcode (str "https://www.instagram.com/p/" ++ (str "abc123" ++ '/' :: str "")) = some (str "abc123") ∧
     extract_shortcode (str "https://www.instagram.com/reel/" ++ (str "abc123" ++ '/' :: str "")) = some (str "abc123") ∧
     extract_shortcode (str "https://www.instagram.com/tv/" ++ (str "abc123" ++ '/' :: str "")) = some (str "abc123") ∧
     canonicalUrl (str "abc123") = str "https://www.instagram.com/p/" ++ str "abc123" ++ str "/" ∧
     extract_shortcode (canonicalUrl (str "abc123")) = some (str "abc123")) :=
  ⟨⟨by decide, by decide⟩,
   extract_shortcode_segment_variants (str "abc123") (str "") (by decide) (by decide)⟩

/- ======================= no-match behaviour (C6) ======================= -/

theorem searchShortcode_eq_none (s : PyStr)
    (h : ∀ i ≤ s.length, matchSchemeOpt (s.drop i) = none) :
    searchShortcode s = none := by
  induction s with
  | nil => rfl
  | cons c cs ih =>
    have h0 : matchSchemeOpt (c :: cs) = none := h 0 (Nat.zero_le _)
    simp only [searchShortcode, h0, Option.none_orElse]
    exact ih fun i hi => h (i + 1) (Nat.succ_le_succ hi)

/- ===================== cleanup invariant (C2) ===================== -/

theorem runBody_no_cleanup (env : DownloadEnv) (url : PyStr) :
    cleanupCount (bodyEffects (runBody env url)) = 0 := by
  unfold runBody
  repeat' split
  all_goals simp [bodyEffects, cleanupCount, isCleanup]

/-- C2: whenever a job allocates the working directory (authorized sender and
parsed shortcode), the trace of `handle_message` contains the allocation,
contains exactly one cleanup effect, and that cleanup — of the allocated
directory — is the very last effect; this holds for every downloader outcome,
artifact state, delivery outcome, and injected internal fault. -/
theorem handle_message_cleanup_once (userId allowed : Int) (msgText sc : PyStr)
    (env : DownloadEnv) (hauth : userId = allowed)
    (hsc : extract_shortcode (pyStrip msgText) = some sc) :
    Effect.mkdirTemp sc ∈ handle_message userId allowed msgText env ∧
    cleanupCount (handle_message userId allowed msgText env) = 1 ∧
    (handle_message userId allowed msgText env).getLast? = some (Effect.removeTemp sc) := by
  subst hauth
  unfold handle_message
  simp only [ne_eq, not_true_eq_false, if_false, hsc]
  refine ⟨by simp, ?_, ?_⟩
  · have h0 := runBody_no_cleanup env (canonicalUrl sc)
    unfold cleanupCount at h0 ⊢
    simp [List.filter_cons, List.filter_append, isCleanup, h0]
  · have hsplit : Effect.reply StatusMsg.gotIt :: Effect.mkdirTemp sc ::
        (bodyEffects (runBody env (canonicalUrl sc)) ++ [Effect.removeTemp sc]) =
        (Effect.reply StatusMsg.gotIt :: Effect.mkdirTemp sc ::
          bodyEffects (runBody env (canonicalUrl sc))) ++ [Effect.removeTemp sc] := by
      simp
    rw [hsplit, List.getLast?_concat]

/-- A benign environment for concrete runs: downloader succeeds, both
artifacts present, empty metadata object, delivery succeeds, no fault. -/
def envDefault : DownloadEnv :=
  ⟨0, [], true, true, 0, some ⟨none, none, none⟩, SendResult.ok, none⟩

theorem handle_message_cleanup_once_witness :
    ((1 : Int) = 1 ∧
      extract_shortcode (pyStrip (str "https://www.instagram.com/p/abc/")) = some (str "abc")) ∧
    (Effect.mkdirTemp (str "abc") ∈
        handle_message 1 1 (str "https://www.instagram.com/p/abc/") envDefault ∧
      cleanupCount (handle_message 1 1 (str "https://www.instagram.com/p/abc/") envDefault) = 1 ∧
      (handle_message 1 1 (str "https://www.instagram.com/p/abc/") envDefault).getLast? =
        some (Effect.removeTemp (str "abc"))) :=
  ⟨⟨rfl, by decide⟩,
   handle_message_cleanup_once 1 1 (str "https://www.instagram.com/p/abc/") (str "abc")
     envDefault rfl (by decide)⟩

/-- C6: for an authorized sender whose (stripped) message matches the link
pattern at no position, the parser returns no shortcode — it is a total
function, so it can raise nothing — and the handler only sends the reprompt
reply: no directory is created, no downloader runs, no upload happens. -/
theorem handle_message_no_match (userId allowed : Int) (msgText : PyStr) (env : DownloadEnv)
    (hauth : userId = allowed)
    (hnone : ∀ i ≤ (pyStrip msgText).length, matchSchemeOpt ((pyStrip msgText).drop i) = none) :
    extract_shortcode (pyStrip msgText) = none ∧
    handle_message userId allowed msgText env = [Effect.reply StatusMsg.invalidLink] := by
  have h1 : extract_shortcode (pyStrip msgText) = none := searchShortcode_eq_none _ hnone
  subst hauth
  refine ⟨h1, ?_⟩
  unfold handle_message
  simp [h1]

theorem handle_message_no_match_witness :
    ((1 : Int) = 1 ∧
      ∀ i ≤ (pyStrip (str "hello")).length, matchSchemeOpt ((pyStrip (str "hello")).drop i) = none) ∧
    (extract_shortcode (pyStrip (str "hello")) = none ∧
      handle_message 1 1 (str "hello") envDefault = [Effect.reply StatusMsg.invalidLink]) :=
  ⟨⟨rfl, by decide⟩, handle_message_no_match 1 1 (str "hello") envDefault rfl (by decide)⟩

/-- C9: an unauthorized sender gets no reply from either handler and no job
is created; the observable trace is empty and hence identical for all
unauthorized senders, whatever their message or environment. -/
theorem unauthorized_silently_dropped (userId allowed : Int) (msgText : PyStr)
    (env : DownloadEnv) (h : userId ≠ allowed) :
    handle_message userId allowed msgText env = [] ∧
    start_command userId allowed = [] ∧
    ∀ (userId2 : Int) (msgText2 : PyStr) (env2 : DownloadEnv), userId2 ≠ allowed →
      handle_message userId2 allowed msgText2 env2 = handle_message userId allowed msgText env := by
  refine ⟨?_, ?_, ?_⟩
  · unfold handle_message
    simp [h]
  · unfold start_command
    simp [h]
  · intro u2 t2 e2 h2
    unfold handle_message
    simp [h, h2]

theorem unauthorized_silently_dropped_witness :
    ((2 : Int) ≠ 1) ∧
    (handle_message 2 1 (str "https://www.instagram.com/p/abc/") envDefault = [] ∧
      start_command 2 1 = [] ∧
      ∀ (userId2 : Int) (msgText2 : PyStr) (env2 : DownloadEnv), userId2 ≠ 1 →
        handle_message userId2 1 msgText2 env2 =
          handle_message 2 1 (str "https://www.instagram.com/p/abc/") envDefault) :=
  ⟨by decide,
   unauthorized_silently_dropped 2 1 (str "https://www.instagram.com/p/abc/") envDefault (by decide)⟩

/-- A 60 MB artifact against the 50 MB ceiling (spec scenario). -/
def envOversize : DownloadEnv :=
  ⟨0, [], true, true, 60 * 1024 * 1024, some ⟨none, none, none⟩, SendResult.ok, none⟩

/-- C7: when the downloader succeeds but the video artifact is larger than
`MAX_FILE_SIZE_BYTES`, the job's trace ends in the too-large status edit —
which carries both the measured byte size and the 50 MB ceiling — followed
only by cleanup, and no upload call appears anywhere in the trace. -/
theorem handle_message_too_large (userId allowed : Int) (msgText sc : PyStr)
    (env : DownloadEnv) (hauth : userId = allowed)
    (hsc : extract_shortcode (pyStrip msgText) = some sc)
    (hfault : env.faultAt = none)
    (hexit : env.returncode = 0)
    (hvid : env.videoPresent = true)
    (hinfo : env.infoJsonPresent = true)
    (hsize : MAX_FILE_SIZE_BYTES < env.videoSize) :
    handle_message userId allowed msgText env =
      [Effect.reply StatusMsg.gotIt, Effect.mkdirTemp sc,
       Effect.runDownloader (canonicalUrl sc),
       Effect.editStatus (StatusMsg.tooLarge env.videoSize MAX_FILE_SIZE_MB),
       Effect.removeTemp sc] ∧
    ∀ c, Effect.sendVideo c ∉ handle_message userId allowed msgText env := by
  subst hauth
  have htrace : handle_message userId userId msgText env =
      [Effect.reply StatusMsg.gotIt, Effect.mkdirTemp sc,
       Effect.runDownloader (canonicalUrl sc),
       Effect.editStatus (StatusMsg.tooLarge env.videoSize MAX_FILE_SIZE_MB),
       Effect.removeTemp sc] := by
    unfold handle_message runBody
    simp [hsc, hfault, hexit, hvid, hinfo, hsize, bodyEffects]
  refine ⟨htrace, ?_⟩
  rw [htrace]
  intro c
  simp

theorem handle_message_too_large_witness :
    ((1 : Int) = 1 ∧
      extract_shortcode (pyStrip (str "https://www.instagram.com/p/abc/")) = some (str "abc") ∧
      (envOversize.faultAt = none ∧ envOversize.returncode = 0 ∧
        envOversize.videoPresent = true ∧ envOversize.infoJsonPresent = true ∧
        MAX_FILE_SIZE_BYTES < envOversize.videoSize)) ∧
    (handle_message 1 1 (str "https://www.instagram.com/p/abc/") envOversize =
      [Effect.reply StatusMsg.gotIt, Effect.mkdirTemp (str "abc"),
       Effect.runDownloader (canonicalUrl (str "abc")),
       Effect.editStatus (StatusMsg.tooLarge envOversize.videoSize MAX_FILE_SIZE_MB),
       Effect.removeTemp (str "abc")] ∧
      ∀ c, Effect.sendVideo c ∉ handle_message 1 1 (str "https://www.instagram.com/p/abc/") envOversize) :=
  ⟨⟨rfl, by decide, by decide, by decide, by decide, by decide, by decide⟩,
   handle_message_too_large 1 1 (str "https://www.instagram.com/p/abc/") (str "abc")
     envOversize rfl (by decide) rfl rfl rfl rfl (by decide)⟩

/- ===================== download failure (C8) ===================== -/

theorem dropWhile_ws_replicate (n : Nat) :
    (List.replicate n 'a').dropWhile Char.isWhitespace = List.replicate n 'a' := by
  cases n with
  | zero => rfl
  | succ m =>
    have h : Char.isWhitespace 'a' = false := by decide
    simp [List.replicate_succ, List.dropWhile_cons, h]

theorem pyStrip_replicate (n : Nat) :
    pyStrip (List.replicate n 'a') = List.replicate n 'a' := by
  unfold pyStrip
  rw [dropWhile_ws_replicate, List.reverse_replicate, dropWhile_ws_replicate,
    List.reverse_replicate]

/-- C8 counterexample: there is no bound on the length of the diagnostic text
carried by the download-failure status message — the code embeds the entire
captured stderr (merely whitespace-stripped), so for every candidate bound
an environment whose stderr is longer produces a longer surfaced diagnostic.
This refutes the claim that the diagnostic is truncated to a bounded preview
length. -/
theorem download_diagnostic_unbounded :
    ¬ ∃ B : Nat, ∀ (env : DownloadEnv) (s : PyStr),
        Effect.editStatus (StatusMsg.downloadFailed s) ∈
          handle_message 1 1 (str "https://www.instagram.com/p/abc/") env →
        s.length ≤ B := by
  rintro ⟨B, hB⟩
  have hsc : extract_shortcode (pyStrip (str "https://www.instagram.com/p/abc/")) =
      some (str "abc") := by decide
  have hmem : Effect.editStatus (StatusMsg.downloadFailed (List.replicate (B + 1) 'a')) ∈
      handle_message 1 1 (str "https://www.instagram.com/p/abc/")
        ⟨1, List.replicate (B + 1) 'a', true, true, 0, none, SendResult.ok, none⟩ := by
    unfold handle_message runBody
    simp [hsc, bodyEffects, pyStrip_replicate]
  have hle := hB _ _ hmem
  simp only [List.length_replicate] at hle
  omega

/-- C8 as amended: a nonzero downloader exit makes the job fail before any
upload call, and the failure status message carries the captured stderr
diagnostic in full (whitespace-stripped) — with no truncation to a preview
length. -/
theorem handle_message_download_failed (userId allowed : Int) (msgText sc : PyStr)
    (env : DownloadEnv) (hauth : userId = allowed)
    (hsc : extract_shortcode (pyStrip msgText) = some sc)
    (hfault : env.faultAt = none)
    (hexit : env.returncode ≠ 0) :
    handle_message userId allowed msgText env =
      [Effect.reply StatusMsg.gotIt, Effect.mkdirTemp sc,
       Effect.runDownloader (canonicalUrl sc),
       Effect.editStatus (StatusMsg.downloadFailed (pyStrip env.stderrText)),
       Effect.removeTemp sc] ∧
    ∀ c, Effect.sendVideo c ∉ handle_message userId allowed msgText env := by
  subst hauth
  have htrace : handle_message userId userId msgText env =
      [Effect.reply StatusMsg.gotIt, Effect.mkdirTemp sc,
       Effect.runDownloader (canonicalUrl sc),
       Effect.editStatus (StatusMsg.downloadFailed (pyStrip env.stderrText)),
       Effect.removeTemp sc] := by
    unfold handle_message runBody
    simp [hsc, hfault, hexit, bodyEffects]
  refine ⟨htrace, ?_⟩
  rw [htrace]
  intro c
  simp

/-- The spec's download-failure scenario: exit 1 with a captured stderr. -/
def envDownloadFail : DownloadEnv :=
  ⟨1, str "ERROR: unsupported URL", true, true, 0, none, SendResult.ok, none⟩

theorem handle_message_download_failed_witness :
    ((1 : Int) = 1 ∧
      extract_shortcode (pyStrip (str "https://www.instagram.com/p/abc/")) = some (str "abc") ∧
      envDownloadFail.faultAt = none ∧ envDownloadFail.returncode ≠ 0) ∧
    (handle_message 1 1 (str "https://www.instagram.com/p/abc/") envDownloadFail =
      [Effect.reply StatusMsg.gotIt, Effect.mkdirTemp (str "abc"),
       Effect.runDownloader (canonicalUrl (str "abc")),
       Effect.editStatus (StatusMsg.downloadFailed (pyStrip envDownloadFail.stderrText)),
       Effect.removeTemp (str "abc")] ∧
      ∀ c, Effect.sendVideo c ∉
        handle_message 1 1 (str "https://www.instagram.com/p/abc/") envDownloadFail) :=
  ⟨⟨rfl, by decide, rfl, by decide⟩,
   handle_message_download_failed 1 1 (str "https://www.instagram.com/p/abc/") (str "abc")
     envDownloadFail rfl (by decide) rfl (by decide)⟩

/- ===================== metadata fallbacks (C10) ===================== -/

/-- C10 counterexample: with all three consumed fields missing, the uploader
falls back to `"unknown"`, but the description falls back to the empty string
and the webpage URL falls back to the canonical post URL — neither of the
latter equals the fallback value `"unknown"` the claim asserts. -/
theorem metadata_fallbacks_cex :
    infoUploader ⟨none, none, none⟩ = str "unknown" ∧
    infoDescription ⟨none, none, none⟩ = str "" ∧
    infoDescription ⟨none, none, none⟩ ≠ str "unknown" ∧
    infoPostUrl ⟨none, none, none⟩ (canonicalUrl (str "abc")) = canonicalUrl (str "abc") ∧
    infoPostUrl ⟨none, none, none⟩ (canonicalUrl (str "abc")) ≠ str "unknown" ∧
    composeCaption ⟨none, none, none⟩ (canonicalUrl (str "abc")) =
      str "\n\nSource: @unknown\nLink: https://www.instagram.com/p/abc/" := by
  decide

/-- C10 as amended: whenever the metadata artifact parses, each missing
consumed field degrades to its own defined fallback — uploader to
`"unknown"`, description to the empty string, webpage URL to the canonical
post URL — caption construction succeeds, and the job proceeds to the upload
call and completes. -/
theorem metadata_missing_fields_degrade (userId allowed : Int) (msgText sc : PyStr)
    (env : DownloadEnv) (i : InfoJson) (hauth : userId = allowed)
    (hsc : extract_shortcode (pyStrip msgText) = some sc)
    (hfault : env.faultAt = none)
    (hexit : env.returncode = 0)
    (hvid : env.videoPresent = true)
    (hinfo : env.infoJsonPresent = true)
    (hsize : ¬ MAX_FILE_SIZE_BYTES < env.videoSize)
    (hparse : env.infoParse = some i)
    (hsend : env.sendResult = SendResult.ok) :
    handle_message userId allowed msgText env =
      [Effect.reply StatusMsg.gotIt, Effect.mkdirTemp sc,
       Effect.runDownloader (canonicalUrl sc),
       Effect.editStatus StatusMsg.downloadComplete,
       Effect.sendVideo (composeCaption i (canonicalUrl sc)),
       Effect.editStatus StatusMsg.posted,
       Effect.removeTemp sc] ∧
    infoUploader { i with uploader := none } = str "unknown" ∧
    infoDescription { i with description := none } = str "" ∧
    infoPostUrl { i with webpage_url := none } (canonicalUrl sc) = canonicalUrl sc := by
  subst hauth
  refine ⟨?_, rfl, rfl, rfl⟩
  unfold handle_message runBody
  simp [hsc, hfault, hexit, hvid, hinfo, hsize, hparse, hsend, bodyEffects]

/-- The spec's happy-path scenario metadata (uploader and webpage present,
description missing). -/
def envHappy : DownloadEnv :=
  ⟨0, [], true, true, 10 * 1000 * 1000,
   some ⟨some (str "jane"), none, some (str "https://instagram.com/p/abc123/")⟩,
   SendResult.ok, none⟩

theorem metadata_missing_fields_degrade_witness :
    ((1 : Int) = 1 ∧
      extract_shortcode (pyStrip (str "https://www.instagram.com/p/abc123/")) = some (str "abc123") ∧
      envHappy.faultAt = none ∧ envHappy.returncode = 0 ∧
      envHappy.videoPresent = true ∧ envHappy.infoJsonPresent = true ∧
      ¬ MAX_FILE_SIZE_BYTES < envHappy.videoSize ∧
      envHappy.infoParse = some ⟨some (str "jane"), none, some (str "https://instagram.com/p/abc123/")⟩ ∧
      envHappy.sendResult = SendResult.ok) ∧
    (handle_message 1 1 (str "https://www.instagram.com/p/abc123/") envHappy =
      [Effect.reply StatusMsg.gotIt, Effect.mkdirTemp (str "abc123"),
       Effect.runDownloader (canonicalUrl (str "abc123")),
       Effect.editStatus StatusMsg.downloadComplete,
       Effect.sendVideo (composeCaption
         ⟨some (str "jane"), none, some (str "https://instagram.com/p/abc123/")⟩
         (canonicalUrl (str "abc123"))),
       Effect.editStatus StatusMsg.posted,
       Effect.removeTemp (str "abc123")] ∧
      infoUploader ⟨none, none, some (str "https://instagram.com/p/abc123/")⟩ = str "unknown" ∧
      infoDescription ⟨some (str "jane"), none, some (str "https://instagram.com/p/abc123/")⟩ = str "" ∧
      infoPostUrl ⟨some (str "jane"), none, none⟩ (canonicalUrl (str "abc123")) =
        canonicalUrl (str "abc123")) :=
  ⟨⟨rfl, by decide, rfl, rfl, rfl, rfl, by decide, rfl, rfl⟩,
   metadata_missing_fields_degrade 1 1 (str "https://www.instagram.com/p/abc123/") (str "abc123")
     envHappy ⟨some (str "jane"), none, some (str "https://instagram.com/p/abc123/")⟩
     rfl (by decide) rfl rfl rfl rfl (by decide) rfl rfl⟩

/- ===================== caption escaping (C1) ===================== -/

/-- C1 counterexample: the caption composed for the spec's own scenario
metadata (description `hello #world!`) contains unescaped reserved markup
characters, while the formatter's fixed scaffold alone contains none — so
the unescaped reserved characters come from the user-controlled fields,
refuting the claim that every such character is prefixed with an escape
marker. -/
theorem caption_has_unescaped_reserved :
    containsUnescapedReserved
      (composeCaption
        ⟨some (str "jane"), some (str "hello #world!"),
         some (str "https://instagram.com/p/abc123/")⟩
        (canonicalUrl (str "abc123"))) = true ∧
    containsUnescapedReserved (buildRawCaption (str "") (str "") (str "")) = false := by
  decide

/-- C1 as amended: the formatter performs no escaping at all — the
description is embedded verbatim as a prefix of the caption, the caption
contains exactly the escape-marker characters already present in the
user-controlled fields (none are inserted), and its length is exactly the
fields' lengths plus the 18 scaffold characters. -/
theorem caption_embeds_fields_verbatim (d u p : PyStr) :
    (buildRawCaption d u p).take d.length = d ∧
    List.count '\\' (buildRawCaption d u p) =
      List.count '\\' d + List.count '\\' u + List.count '\\' p ∧
    (buildRawCaption d u p).length = d.length + u.length + p.length + 18 := by
  unfold buildRawCaption
  refine ⟨?_, ?_, ?_⟩
  · simp only [List.append_assoc]
    exact List.take_append_of_le_length (Nat.le_refl _) ▸ List.take_left d _
  · simp only [List.count_append]
    have h1 : List.count '\\' (str "\n\n") = 0 := by decide
    have h2 : List.count '\\' (str "Source: @") = 0 := by decide
    have h3 : List.count '\\' (str "\n") = 0 := by decide
    have h4 : List.count '\\' (str "Link: ") = 0 := by decide
    rw [h1, h2, h3, h4]
    omega
  · simp only [List.length_append]
    have h1 : (str "\n\n").length = 2 := by decide
    have h2 : (str "Source: @").length = 9 := by decide
    have h3 : (str "\n").length = 1 := by decide
    have h4 : (str "Link: ").length = 6 := by decide
    rw [h1, h2, h3, h4]
    omega

/- ===================== caption length cap (C3) ===================== -/

/-- C3: for every description, uploader handle, and post URL, the caption
finally produced — after the truncation step, when it applies — has length at
most `TELEGRAM_CAPTION_LIMIT` (1024). -/
theorem caption_length_le_limit (d u p : PyStr) :
    (truncateCaption (buildRawCaption d u p)).length ≤ TELEGRAM_CAPTION_LIMIT := by
  unfold truncateCaption
  split
  case isTrue h =>
    rw [List.length_append, List.length_take]
    have h3 : (str "...").length = 3 := by decide
    rw [h3]
    unfold TELEGRAM_CAPTION_LIMIT at h ⊢
    omega
  case isFalse h =>
    omega

/- ===================== truncation target (C4) ===================== -/

/-- C4 counterexample: with a 1100-character description the composed caption
exceeds the limit, and the truncated caption is the first 1020 caption
characters (all description) plus `"..."` — the uploader-credit and post-URL
lines are cut off entirely, so the final caption does not end with the link
line. -/
theorem truncation_cuts_credit_and_link :
    TELEGRAM_CAPTION_LIMIT <
      (buildRawCaption (List.replicate 1100 'a') (str "u") (str "https://x")).length ∧
    truncateCaption (buildRawCaption (List.replicate 1100 'a') (str "u") (str "https://x")) =
      List.replicate 1020 'a' ++ str "..." ∧
    List.drop
      ((truncateCaption (buildRawCaption (List.replicate 1100 'a') (str "u") (str "https://x"))).length -
        (str "Link: https://x").length)
      (truncateCaption (buildRawCaption (List.replicate 1100 'a') (str "u") (str "https://x"))) ≠
      str "Link: https://x" := by
  decide

/-- C4 as amended: truncation keeps only the first 1020 characters of the
whole composed caption and appends `"..."`; in particular, whenever the
description alone is at least 1020 characters long, the final caption is a
prefix of the description plus the ellipsis, and the credit/link segment is
removed rather than preserved. -/
theorem truncation_keeps_caption_head (d u p : PyStr)
    (hlen : TELEGRAM_CAPTION_LIMIT < (buildRawCaption d u p).length)
    (hd : TELEGRAM_CAPTION_LIMIT - 4 ≤ d.length) :
    truncateCaption (buildRawCaption d u p) =
      d.take (TELEGRAM_CAPTION_LIMIT - 4) ++ str "..." := by
  unfold truncateCaption
  rw [if_pos hlen]
  congr 1
  unfold buildRawCaption
  simp only [List.append_assoc]
  exact List.take_append_of_le_length hd

theorem truncation_keeps_caption_head_witness :
    (TELEGRAM_CAPTION_LIMIT <
        (buildRawCaption (List.replicate 1020 'a') (str "u") (str "pp")).length ∧
      TELEGRAM_CAPTION_LIMIT - 4 ≤ (List.replicate 1020 'a').length) ∧
    truncateCaption (buildRawCaption (List.replicate 1020 'a') (str "u") (str "pp")) =
      (List.replicate 1020 'a').take (TELEGRAM_CAPTION_LIMIT - 4) ++ str "..." :=
  ⟨⟨by decide, by decide⟩,
   truncation_keeps_caption_head (List.replicate 1020 'a') (str "u") (str "pp")
     (by decide) (by decide)⟩
